import Mathlib

/-
  Verification of the UW-Agent underwriting core.

  Shallow embedding of:
  - tools/agent_router.py   (ReviewRuleRouter, get_agent_execution_plan)
  - tools/policy_executor.py (StructuredRule schema, save_rules / load_rules)
  - models/application.py   (FindingStatus, RiskLevel, DecisionStatus enums)
  - the Decision Aggregator (spec section 4.5; not present under src/, modelled
    from the spec where noted)

  Python machine floats that only ever pass through JSON serialization are
  modelled as rationals (Python's json round-trips floats exactly via repr);
  Python ints as Lean integers; Python dicts as insertion-ordered association
  lists (CPython dicts preserve insertion order).
-/

/-- Generic lookup in a string-keyed association list (models Python dict
lookup / `in` tests on the router's class-level tables). -/
def lookupKey {α : Type} : List (String × α) → String → Option α
  | [], _ => none
  | (k, v) :: rest, key => if k = key then some v else lookupKey rest key

/- ===================== tools/agent_router.py ===================== -/

/-- `AgentType` enum from tools/agent_router.py. -/
inductive AgentType
  | IDENTITY
  | INCOME
  | FRAUD
deriving DecidableEq

/-- The `.value` string of an `AgentType` member. -/
def AgentType.value : AgentType → String
  | .IDENTITY => "identity"
  | .INCOME => "income"
  | .FRAUD => "fraud"

/-- `ReviewRuleRouter.ROUTING_MAP`: review rule → primary agents. -/
def ROUTING_MAP : List (String × List AgentType) :=
  [("IDENTITY_VERIFICATION", [AgentType.IDENTITY]),
   ("INCOME_VALIDATION", [AgentType.INCOME]),
   ("FRAUD_CHECK", [AgentType.FRAUD]),
   ("HIGH_RISK_PROFILE", [AgentType.IDENTITY, AgentType.INCOME, AgentType.FRAUD])]

/-- `ReviewRuleRouter.PREREQUISITES`: agents that must run before the
primary agent. -/
def PREREQUISITES : List (String × List AgentType) :=
  [("FRAUD_CHECK", [AgentType.IDENTITY, AgentType.INCOME])]

/-- `ReviewRuleRouter.RISK_LEVELS`: risk level by review rule. -/
def RISK_LEVELS : List (String × String) :=
  [("IDENTITY_VERIFICATION", "HIGH"),
   ("INCOME_VALIDATION", "MEDIUM"),
   ("FRAUD_CHECK", "CRITICAL"),
   ("HIGH_RISK_PROFILE", "HIGH")]

/-- The dedup-append loop shared by `get_required_agents` and
`get_agent_execution_plan`: append each agent of the second list to the
accumulator unless already present (the Python code keeps a `seen` set in
`get_agent_execution_plan`, which stays in sync with list membership). -/
def dedupAppend : List AgentType → List AgentType → List AgentType
  | acc, [] => acc
  | acc, x :: xs =>
      if x ∈ acc then dedupAppend acc xs else dedupAppend (acc ++ [x]) xs

/-- `ReviewRuleRouter.get_required_agents`: `none` models the `ValueError`
raised for a rule name outside `ROUTING_MAP`; otherwise prerequisites are
emitted first (when enabled), then primary agents, skipping duplicates. -/
def get_required_agents (review_rule : String) (include_prerequisites : Bool) :
    Option (List AgentType) :=
  match lookupKey ROUTING_MAP review_rule with
  | none => none
  | some primaries =>
      let prereqs :=
        if include_prerequisites then (lookupKey PREREQUISITES review_rule).getD []
        else []
      some (dedupAppend (dedupAppend [] prereqs) primaries)

/-- `ReviewRuleRouter.get_agent_names`: agent `.value` strings. -/
def get_agent_names (review_rule : String) (include_prerequisites : Bool) :
    Option (List String) :=
  (get_required_agents review_rule include_prerequisites).map (List.map AgentType.value)

/-- `ReviewRuleRouter.get_risk_level`: `RISK_LEVELS.get(review_rule, "MEDIUM")` —
note the silent default for unrecognized names. -/
def get_risk_level (review_rule : String) : String :=
  (lookupKey RISK_LEVELS review_rule).getD "MEDIUM"

/-- `ReviewRuleRouter.is_critical_rule`. -/
def is_critical_rule (review_rule : String) : Bool :=
  get_risk_level review_rule = "CRITICAL"

/-- `priority_order` dict in `get_agent_execution_plan`. -/
def priority_order : List (String × Nat) :=
  [("CRITICAL", 0), ("HIGH", 1), ("MEDIUM", 2)]

/-- Sort key of a rule: `priority_order.get(get_risk_level(r), 3)`. -/
def rulePriority (review_rule : String) : Nat :=
  (lookupKey priority_order (get_risk_level review_rule)).getD 3

/-- Stable insertion of a rule after all rules of equal-or-higher priority
already placed. -/
def insertByPriority (x : String) : List String → List String
  | [] => [x]
  | y :: ys =>
      if rulePriority y ≤ rulePriority x then y :: insertByPriority x ys
      else x :: y :: ys

/-- Python's `sorted(review_rules, key=rulePriority)`: stable sort by
ascending priority index (CRITICAL = 0 first).  Left-to-right insertion
after equals reproduces the unique stable order. -/
def sortByPriority (rules : List String) : List String :=
  rules.foldl (fun acc x => insertByPriority x acc) []

/-- One entry of `rule_details` in the execution plan. -/
structure RuleDetail where
  rule : String
  risk_level : String
  agents : List String
  is_critical : Bool
deriving DecidableEq

/-- The dict returned by `get_agent_execution_plan`. -/
structure ExecutionPlan where
  execution_order : List String
  total_agents : Nat
  rules_by_priority : List String
  rule_details : List RuleDetail
  has_critical_rules : Bool
deriving DecidableEq

/-- The main loop of `get_agent_execution_plan`: walk the priority-sorted
rules, dedup-appending each rule's required agents and recording its
detail row; `none` models the `ValueError` escaping from
`get_required_agents` on an unknown rule. -/
def planLoop : List String → List AgentType → List RuleDetail →
    Option (List AgentType × List RuleDetail)
  | [], acc, details => some (acc, details)
  | r :: rs, acc, details =>
      match get_required_agents r true with
      | none => none
      | some req =>
          planLoop rs (dedupAppend acc req)
            (details ++ [⟨r, get_risk_level r, req.map AgentType.value,
                          is_critical_rule r⟩])

/-- `get_agent_execution_plan` from tools/agent_router.py. -/
def get_agent_execution_plan (review_rules : List String) : Option ExecutionPlan :=
  let sorted := sortByPriority review_rules
  match planLoop sorted [] [] with
  | none => none
  | some (all_agents, details) =>
      some ⟨all_agents.map AgentType.value, all_agents.length, sorted, details,
            review_rules.any is_critical_rule⟩

/- ===================== theorems: router claims ===================== -/

/-- C5: `get_required_agents("FRAUD_CHECK", include_prerequisites=True)` is
exactly [IDENTITY, INCOME, FRAUD] (prerequisites first, in declared order,
then the primary agent), and with `include_prerequisites=False` it is
exactly [FRAUD]. -/
theorem required_agents_fraud_check :
    get_required_agents "FRAUD_CHECK" true =
      some [AgentType.IDENTITY, AgentType.INCOME, AgentType.FRAUD] ∧
    get_required_agents "FRAUD_CHECK" false = some [AgentType.FRAUD] := by
  decide

/-- C3 (code evaluation): for a rule name outside the closed review-rule set,
`get_risk_level` silently returns the default "MEDIUM" instead of raising,
while `get_required_agents` on the same name does error (returns `none`,
modelling the raised `ValueError`). -/
theorem get_risk_level_defaults_medium_on_unknown :
    get_risk_level "NOT_A_RULE" = "MEDIUM" ∧
    get_required_agents "NOT_A_RULE" true = none := by
  decide

/-- C2: the execution plan for ["INCOME_VALIDATION", "FRAUD_CHECK"] sorts
FRAUD_CHECK (CRITICAL) ahead of INCOME_VALIDATION (MEDIUM), so the merged
order is [identity, income, fraud] with 3 total agents. -/
theorem plan_income_fraud_execution_order :
    (get_agent_execution_plan ["INCOME_VALIDATION", "FRAUD_CHECK"]).map
        (fun p => (p.execution_order, p.total_agents, p.rules_by_priority)) =
      some (["identity", "income", "fraud"], 3,
            ["FRAUD_CHECK", "INCOME_VALIDATION"]) := by
  decide

/- ===================== C4: plan invariants ===================== -/

/-- `dedupAppend` preserves the no-duplicates invariant of the accumulator. -/
lemma dedupAppend_nodup : ∀ (l acc : List AgentType), acc.Nodup →
    (dedupAppend acc l).Nodup := by
  intro l
  induction l with
  | nil => intro acc h; exact h
  | cons x xs ih =>
      intro acc h
      by_cases hx : x ∈ acc
      · rw [dedupAppend, if_pos hx]
        exact ih acc h
      · rw [dedupAppend, if_neg hx]
        apply ih
        simp [List.nodup_append, h, hx]

/-- `planLoop` preserves the no-duplicates invariant of the collected
agent list. -/
lemma planLoop_nodup : ∀ (l : List String) (acc : List AgentType)
    (d : List RuleDetail) (res : List AgentType × List RuleDetail),
    acc.Nodup → planLoop l acc d = some res → res.1.Nodup := by
  intro l
  induction l with
  | nil =>
      intro acc d res h heq
      rw [planLoop] at heq
      cases heq
      exact h
  | cons r rs ih =>
      intro acc d res h heq
      rw [planLoop] at heq
      cases hreq : get_required_agents r true with
      | none => rw [hreq] at heq; cases heq
      | some req =>
          rw [hreq] at heq
          exact ih _ _ res (dedupAppend_nodup req acc h) heq

/-- `AgentType.value` is injective (the three value strings differ). -/
lemma AgentType.value_injective :
    ∀ a b : AgentType, a.value = b.value → a = b := by
  intro a b
  cases a <;> cases b <;> decide

/-- C4: for every rule list accepted by the planner, the plan's
`execution_order` contains each agent at most once (no duplicates),
`total_agents` equals the length of `execution_order`, and in particular
the plan for ["IDENTITY_VERIFICATION", "FRAUD_CHECK"] lists "identity"
exactly once with `total_agents = 3` (the agent required by the earlier,
higher-priority FRAUD_CHECK keeps its position). -/
theorem plan_execution_order_nodup_total (rules : List String) (p : ExecutionPlan)
    (h : get_agent_execution_plan rules = some p) :
    p.execution_order.Nodup ∧ p.total_agents = p.execution_order.length ∧
    ((get_agent_execution_plan ["IDENTITY_VERIFICATION", "FRAUD_CHECK"]).map
        (fun q => (q.execution_order, q.execution_order.count "identity",
                   q.total_agents)) =
      some (["identity", "income", "fraud"], 1, 3)) := by
  rw [get_agent_execution_plan] at h
  cases hloop : planLoop (sortByPriority rules) [] [] with
  | none => rw [hloop] at h; cases h
  | some res =>
      rw [hloop] at h
      cases h
      refine ⟨?_, ?_, by decide⟩
      · exact (planLoop_nodup _ _ _ res List.nodup_nil hloop).map
          (fun a b hab => AgentType.value_injective a b hab)
      · simp

/-- C4 witness: the invariants instantiated on a concrete accepted plan. -/
theorem plan_execution_order_nodup_total_witness :
    ∃ p, get_agent_execution_plan ["IDENTITY_VERIFICATION", "FRAUD_CHECK"] = some p ∧
      p.execution_order.Nodup ∧ p.total_agents = p.execution_order.length := by
  refine ⟨⟨["identity", "income", "fraud"], 3,
           ["FRAUD_CHECK", "IDENTITY_VERIFICATION"],
           [⟨"FRAUD_CHECK", "CRITICAL", ["identity", "income", "fraud"], true⟩,
            ⟨"IDENTITY_VERIFICATION", "HIGH", ["identity"], false⟩],
           true⟩, by decide, ?_, ?_⟩
  · exact (plan_execution_order_nodup_total ["IDENTITY_VERIFICATION", "FRAUD_CHECK"]
      _ (by decide)).1
  · exact (plan_execution_order_nodup_total ["IDENTITY_VERIFICATION", "FRAUD_CHECK"]
      _ (by decide)).2.1

/- ===================== tools/policy_executor.py ===================== -/

/-- JSON document values as produced by Python's `json` module.  Numbers are
modelled as rationals: `json.dump`/`json.load` round-trips Python ints and
floats exactly, and pydantic's lax mode coerces integral numbers into float
fields, so one exact numeric carrier is faithful. -/
inductive Json
  | null
  | bool (b : Bool)
  | num (q : ℚ)
  | str (s : String)
  | arr (elems : List Json)
  | obj (fields : List (String × Json))

/-- Field lookup on a JSON object (`rule_data["key"]` / pydantic field
extraction); `none` when the key is absent or the value is not an object. -/
def Json.getField : Json → String → Option Json
  | .obj fs, key => lookupKey fs key
  | _, _ => none

/-- The `float | str` payload of `CheckConfig.threshold`. -/
inductive ThresholdVal
  | num (q : ℚ)
  | str (s : String)
deriving DecidableEq

/-- `CheckConfig` pydantic model from tools/policy_executor.py. -/
structure CheckConfig where
  name : String
  description : String
  tool : String
  required : Bool
  threshold : Option ThresholdVal
  zero_tolerance : Bool
deriving DecidableEq

/-- `WorkflowConfig` pydantic model from tools/policy_executor.py. -/
structure WorkflowConfig where
  parallel_execution : Bool
  timeout_seconds : ℤ
  retry_on_failure : Bool
  cascade_mode : Bool
deriving DecidableEq

/-- `DecisionCriteria` pydantic model from tools/policy_executor.py.  Note:
the source declares `min_confidence: float = Field(0.8, ...)` with no
`ge`/`le` bounds, so the model itself imposes no range on it. -/
structure DecisionCriteria where
  approval_condition : String
  min_confidence : ℚ
  dti_threshold : Option ℚ
  zero_tolerance_checks : List String
  requires_manual_signoff : Bool
deriving DecidableEq

/-- `StructuredRule` pydantic model from tools/policy_executor.py. -/
structure StructuredRule where
  description : String
  risk_level : String
  required_agents : List String
  checks : List CheckConfig
  decision_criteria : DecisionCriteria
  workflow_config : WorkflowConfig
deriving DecidableEq

/- Pydantic validation of each field type, as the declared models check it:
   required fields must be present with the declared type, fields with
   defaults take the default when absent. -/

/-- Validate a JSON value as `str`. -/
def asStr : Json → Option String
  | .str s => some s
  | _ => none

/-- Validate a JSON value as `bool`. -/
def asBool : Json → Option Bool
  | .bool b => some b
  | _ => none

/-- Validate a JSON value as `float`. -/
def asNum : Json → Option ℚ
  | .num q => some q
  | _ => none

/-- Validate a JSON value as `int` (an integral number). -/
def asInt : Json → Option ℤ
  | .num q => if q.den = 1 then some q.num else none
  | _ => none

/-- Validate a JSON value as `Optional[float]` (null becomes `None`). -/
def asOptNum : Json → Option (Option ℚ)
  | .null => some none
  | .num q => some (some q)
  | _ => none

/-- Validate a JSON value as `Optional[float | str]`. -/
def asThreshold : Json → Option (Option ThresholdVal)
  | .null => some none
  | .num q => some (some (ThresholdVal.num q))
  | .str s => some (some (ThresholdVal.str s))
  | _ => none

/-- Validate a JSON value as `List[str]`. -/
def asStrListAux : List Json → Option (List String)
  | [] => some []
  | j :: js => do
      let s ← asStr j
      let rest ← asStrListAux js
      pure (s :: rest)

/-- Validate a JSON value as `List[str]` (top level). -/
def asStrList : Json → Option (List String)
  | .arr xs => asStrListAux xs
  | _ => none

/-- A required pydantic field: absent or ill-typed fails validation. -/
def reqField {α : Type} (j : Json) (key : String) (p : Json → Option α) : Option α :=
  (j.getField key).bind p

/-- A pydantic field with a declared default: absent takes the default,
present must validate. -/
def optField {α : Type} (j : Json) (key : String) (p : Json → Option α)
    (dflt : α) : Option α :=
  match j.getField key with
  | none => some dflt
  | some v => p v

/-- `CheckConfig(**data)`: pydantic validation of one check record. -/
def decodeCheckConfig (j : Json) : Option CheckConfig := do
  let name ← reqField j "name" asStr
  let description ← reqField j "description" asStr
  let tool ← reqField j "tool" asStr
  let required ← optField j "required" asBool true
  let threshold ← optField j "threshold" asThreshold none
  let zero_tolerance ← optField j "zero_tolerance" asBool false
  pure ⟨name, description, tool, required, threshold, zero_tolerance⟩

/-- `WorkflowConfig(**data)`: pydantic validation (all fields defaulted). -/
def decodeWorkflowConfig (j : Json) : Option WorkflowConfig := do
  let parallel_execution ← optField j "parallel_execution" asBool false
  let timeout_seconds ← optField j "timeout_seconds" asInt 30
  let retry_on_failure ← optField j "retry_on_failure" asBool false
  let cascade_mode ← optField j "cascade_mode" asBool false
  pure ⟨parallel_execution, timeout_seconds, retry_on_failure, cascade_mode⟩

/-- `DecisionCriteria(**data)`: pydantic validation.  `min_confidence` is any
float (default 0.8 = 4/5); the source declares no [0,1] bounds. -/
def decodeDecisionCriteria (j : Json) : Option DecisionCriteria := do
  let approval_condition ← reqField j "approval_condition" asStr
  let min_confidence ← optField j "min_confidence" asNum (4 / 5 : ℚ)
  let dti_threshold ← optField j "dti_threshold" asOptNum none
  let zero_tolerance_checks ← optField j "zero_tolerance_checks" asStrList []
  let requires_manual_signoff ← optField j "requires_manual_signoff" asBool false
  pure ⟨approval_condition, min_confidence, dti_threshold, zero_tolerance_checks,
        requires_manual_signoff⟩

/-- Validate a JSON array as `List[CheckConfig]`. -/
def decodeChecksAux : List Json → Option (List CheckConfig)
  | [] => some []
  | j :: js => do
      let c ← decodeCheckConfig j
      let rest ← decodeChecksAux js
      pure (c :: rest)

/-- Validate a JSON value as `List[CheckConfig]` (top level). -/
def decodeChecks : Json → Option (List CheckConfig)
  | .arr xs => decodeChecksAux xs
  | _ => none

/-- `StructuredRule(**rule_data)`: pydantic validation of a full rule record
(this is the schema validation performed by `load_rules` on every entry and
by `_parse_policy_to_rule` on extractor output). -/
def decodeStructuredRule (j : Json) : Option StructuredRule := do
  let description ← reqField j "description" asStr
  let risk_level ← reqField j "risk_level" asStr
  let required_agents ← reqField j "required_agents" asStrList
  let checks ← optField j "checks" decodeChecks []
  let decision_criteria ← reqField j "decision_criteria" decodeDecisionCriteria
  let workflow_config ← reqField j "workflow_config" decodeWorkflowConfig
  pure ⟨description, risk_level, required_agents, checks, decision_criteria,
        workflow_config⟩

/- `model_dump()` serialization, field for field in declaration order. -/

/-- Serialize a `threshold` payload. -/
def encodeThreshold : Option ThresholdVal → Json
  | none => .null
  | some (.num q) => .num q
  | some (.str s) => .str s

/-- Serialize an `Optional[float]`. -/
def encodeOptNum : Option ℚ → Json
  | none => .null
  | some q => .num q

/-- Serialize a `List[str]`. -/
def encodeStrList (l : List String) : Json :=
  .arr (l.map Json.str)

/-- `CheckConfig.model_dump()`. -/
def encodeCheckConfig (c : CheckConfig) : Json :=
  .obj [("name", .str c.name), ("description", .str c.description),
        ("tool", .str c.tool), ("required", .bool c.required),
        ("threshold", encodeThreshold c.threshold),
        ("zero_tolerance", .bool c.zero_tolerance)]

/-- `WorkflowConfig.model_dump()`. -/
def encodeWorkflowConfig (w : WorkflowConfig) : Json :=
  .obj [("parallel_execution", .bool w.parallel_execution),
        ("timeout_seconds", .num (w.timeout_seconds : ℚ)),
        ("retry_on_failure", .bool w.retry_on_failure),
        ("cascade_mode", .bool w.cascade_mode)]

/-- `DecisionCriteria.model_dump()`. -/
def encodeDecisionCriteria (d : DecisionCriteria) : Json :=
  .obj [("approval_condition", .str d.approval_condition),
        ("min_confidence", .num d.min_confidence),
        ("dti_threshold", encodeOptNum d.dti_threshold),
        ("zero_tolerance_checks", encodeStrList d.zero_tolerance_checks),
        ("requires_manual_signoff", .bool d.requires_manual_signoff)]

/-- `StructuredRule.model_dump()`. -/
def encodeStructuredRule (r : StructuredRule) : Json :=
  .obj [("description", .str r.description), ("risk_level", .str r.risk_level),
        ("required_agents", encodeStrList r.required_agents),
        ("checks", .arr (r.checks.map encodeCheckConfig)),
        ("decision_criteria", encodeDecisionCriteria r.decision_criteria),
        ("workflow_config", encodeWorkflowConfig r.workflow_config)]

/-- A rule registry: `self.structured_rules`, an insertion-ordered mapping
from review-rule name to `StructuredRule`. -/
abbrev Registry : Type := List (String × StructuredRule)

/-- `PolicyExecutor.save_rules`: serialize the registry to a JSON document.
When the registry is empty the method logs a warning and returns without
writing any file, modelled as `none`. -/
def save_rules : Registry → Option Json
  | [] => none
  | p :: rest =>
      some (.obj ((p :: rest).map fun q => (q.1, encodeStructuredRule q.2)))

/-- The entry loop of `load_rules`: validate every entry of the persisted
document; the first pydantic `ValidationError` aborts the whole
comprehension (`none`). -/
def loadEntries : List (String × Json) → Option Registry
  | [] => some []
  | (k, v) :: rest => do
      let r ← decodeStructuredRule v
      let rs ← loadEntries rest
      pure ((k, r) :: rs)

/-- The body of the `try` block in `load_rules`: parse the document as a
mapping and validate every entry; `none` is the exception path. -/
def loadAttempt : Json → Option Registry
  | .obj fs => loadEntries fs
  | _ => none

/-- `PolicyExecutor.load_rules`: any exception (malformed entry, wrong
top-level shape) is caught, logged and converted into an empty dict —
the caller receives `{}` rather than an error. -/
def load_rules (j : Json) : Registry :=
  (loadAttempt j).getD []

/- ===================== C6: registry round trip ===================== -/

/-- Decoding a serialized string list recovers it. -/
lemma asStrListAux_encode : ∀ l : List String,
    asStrListAux (l.map Json.str) = some l := by
  intro l
  induction l with
  | nil => rfl
  | cons s rest ih => simp [asStrListAux, asStr, ih]

/-- Decoding a serialized string list recovers it (top level). -/
lemma asStrList_encode (l : List String) : asStrList (encodeStrList l) = some l := by
  simp [asStrList, encodeStrList, asStrListAux_encode]

/-- Decoding an integral JSON number as `int` recovers the integer. -/
lemma asInt_intCast (i : ℤ) : asInt (.num (i : ℚ)) = some i := by
  simp [asInt, Rat.intCast_den, Rat.intCast_num]

/-- Validating a dumped `CheckConfig` recovers it. -/
lemma decodeCheckConfig_encode (c : CheckConfig) :
    decodeCheckConfig (encodeCheckConfig c) = some c := by
  obtain ⟨n, d, t, r, th, z⟩ := c
  cases th with
  | none => rfl
  | some tv => cases tv <;> rfl

/-- Validating a dumped `WorkflowConfig` recovers it. -/
lemma decodeWorkflowConfig_encode (w : WorkflowConfig) :
    decodeWorkflowConfig (encodeWorkflowConfig w) = some w := by
  obtain ⟨pe, ts, rf, cm⟩ := w
  simp [decodeWorkflowConfig, encodeWorkflowConfig, reqField, optField,
        Json.getField, lookupKey, asBool, asInt_intCast]

/-- Validating a dumped `DecisionCriteria` recovers it. -/
lemma decodeDecisionCriteria_encode (d : DecisionCriteria) :
    decodeDecisionCriteria (encodeDecisionCriteria d) = some d := by
  obtain ⟨ac, mc, dti, ztc, rms⟩ := d
  cases dti with
  | none =>
      simp [decodeDecisionCriteria, encodeDecisionCriteria, reqField, optField,
            Json.getField, lookupKey, asStr, asNum, asOptNum, asBool,
            encodeOptNum, asStrList_encode]
  | some q =>
      simp [decodeDecisionCriteria, encodeDecisionCriteria, reqField, optField,
            Json.getField, lookupKey, asStr, asNum, asOptNum, asBool,
            encodeOptNum, asStrList_encode]

/-- Validating a dumped check list recovers it. -/
lemma decodeChecksAux_encode : ∀ cs : List CheckConfig,
    decodeChecksAux (cs.map encodeCheckConfig) = some cs := by
  intro cs
  induction cs with
  | nil => rfl
  | cons c rest ih => simp [decodeChecksAux, decodeCheckConfig_encode, ih]

/-- Validating a dumped `StructuredRule` recovers it. -/
lemma decodeStructuredRule_encode (r : StructuredRule) :
    decodeStructuredRule (encodeStructuredRule r) = some r := by
  obtain ⟨d, rl, ra, cs, dc, wc⟩ := r
  simp [decodeStructuredRule, encodeStructuredRule, reqField, optField,
        Json.getField, lookupKey, asStr, asStrList_encode, decodeChecks,
        decodeChecksAux_encode, decodeDecisionCriteria_encode,
        decodeWorkflowConfig_encode]

/-- Validating every entry of a dumped registry recovers the registry. -/
lemma loadEntries_encode : ∀ reg : Registry,
    loadEntries (reg.map fun p => (p.1, encodeStructuredRule p.2)) = some reg := by
  intro reg
  induction reg with
  | nil => rfl
  | cons p rest ih => simp [loadEntries, decodeStructuredRule_encode, ih]

/-- C6: loading the file produced by saving a registry yields an equal
registry — `load_rules(save_rules(r)) == r` for every registry of
schema-valid `StructuredRule` records that `save_rules` actually writes. -/
theorem load_save_roundtrip (reg : Registry) (doc : Json)
    (h : save_rules reg = some doc) : load_rules doc = reg := by
  cases reg with
  | nil => simp [save_rules] at h
  | cons p rest =>
      rw [save_rules] at h
      cases h
      rw [load_rules, loadAttempt, loadEntries_encode]
      rfl

/-- A sample registry with one fully populated rule. -/
def sampleRegistry : Registry :=
  [("FRAUD_CHECK",
    ⟨"Fraud detection policy", "CRITICAL", ["fraud"],
     [⟨"ofac_check", "OFAC screening", "check_ofac", true, none, true⟩,
      ⟨"velocity_check", "Application velocity", "check_fraud_indicators",
       true, some (.num (3 : ℚ)), false⟩],
     ⟨"all_checks_pass", 9 / 10, some (43 / 100), ["ofac_check"], true⟩,
     ⟨false, 60, true, true⟩⟩)]

/-- C6 witness: the round trip evaluated on the sample registry. -/
theorem load_save_roundtrip_witness :
    load_rules (Json.obj (sampleRegistry.map
      fun p => (p.1, encodeStructuredRule p.2))) = sampleRegistry :=
  load_save_roundtrip sampleRegistry _ rfl

/- ===================== C7: fail-closed load ===================== -/

/-- If any entry of the persisted document fails schema validation, the
whole entry loop fails. -/
lemma loadEntries_fails_of_malformed : ∀ fs : List (String × Json),
    (∃ p ∈ fs, decodeStructuredRule p.2 = none) → loadEntries fs = none := by
  intro fs
  induction fs with
  | nil => rintro ⟨p, hp, _⟩; cases hp
  | cons e rest ih =>
      rintro ⟨p, hp, hdec⟩
      cases hd : decodeStructuredRule e.2 with
      | none => simp [loadEntries, hd]
      | some r =>
          rcases List.mem_cons.mp hp with heq | hmem
        

          · subst heq; rw [hd] at hdec; cases hdec
          · simp [loadEntries, hd, ih ⟨p, hmem, hdec⟩]

/-- C7 (amended): a single malformed entry makes the whole load come back
empty — no entry of the file is loaded (fail-closed, never partial) — but
the failure is only logged: `load_rules` returns the ordinary empty dict
instead of raising. -/
theorem malformed_entry_fails_whole_load (fs : List (String × Json))
    (h : ∃ p ∈ fs, decodeStructuredRule p.2 = none) :
    load_rules (Json.obj fs) = [] := by
  rw [load_rules, loadAttempt, loadEntries_fails_of_malformed fs h]
  rfl

/-- A schema-valid rule value. -/
def wellFormedRule : StructuredRule :=
  ⟨"Identity verification policy", "HIGH", ["identity"], [],
   ⟨"all_checks_pass", 4 / 5, none, [], false⟩, ⟨false, 30, false, false⟩⟩

/-- A schema-valid persisted rule record. -/
def wellFormedEntry : Json :=
  encodeStructuredRule wellFormedRule

/-- A malformed persisted rule record (required string fields missing or of
the wrong type). -/
def malformedEntry : Json :=
  Json.obj [("description", Json.num 1)]

/-- A persisted rules file with one valid and one malformed entry. -/
def badFields : List (String × Json) :=
  [("IDENTITY_VERIFICATION", wellFormedEntry), ("FRAUD_CHECK", malformedEntry)]

/-- C7 counterexample: on a file with a malformed entry, `load_rules` does
not surface any error to the caller — it returns the plain empty dict,
indistinguishable from loading an empty rules file (the well-formed sibling
entry is also dropped, so the fail-closed half of the claim does hold). -/
theorem load_malformed_swallows_error :
    decodeStructuredRule malformedEntry = none ∧
    decodeStructuredRule wellFormedEntry = some wellFormedRule ∧
    load_rules (Json.obj badFields) = ([] : Registry) ∧
    load_rules (Json.obj badFields) = load_rules (Json.obj []) :=
  ⟨rfl, rfl, rfl, rfl⟩

/-- C7 witness: the amended claim evaluated on the concrete bad file. -/
theorem malformed_entry_fails_whole_load_witness :
    load_rules (Json.obj badFields) = [] :=
  malformed_entry_fails_whole_load badFields (by decide)

/- ===================== C8: min_confidence bounds ===================== -/

/-- A candidate `DecisionCriteria` record whose `min_confidence` is 1.5,
outside [0, 1]. -/
def overRangeCriteria : Json :=
  Json.obj [("approval_condition", Json.str "all_checks_pass"),
            ("min_confidence", Json.num (3 / 2)),
            ("dti_threshold", Json.null),
            ("zero_tolerance_checks", Json.arr []),
            ("requires_manual_signoff", Json.bool false)]

/-- A candidate `StructuredRule` carrying the out-of-range criteria. -/
def overRangeRuleJson : Json :=
  Json.obj [("description", Json.str "demo rule"),
            ("risk_level", Json.str "HIGH"),
            ("required_agents", Json.arr [Json.str "identity"]),
            ("checks", Json.arr []),
            ("decision_criteria", overRangeCriteria),
            ("workflow_config", Json.obj [])]

/-- C8 (code evaluation): schema validation accepts a candidate whose
`decision_criteria.min_confidence` is 1.5 > 1 — the pydantic model declares
`min_confidence: float = Field(0.8, ...)` with no `ge`/`le` bounds, so
nothing rejects values outside [0, 1]. -/
theorem min_confidence_out_of_range_accepted :
    decodeStructuredRule overRangeRuleJson =
      some ⟨"demo rule", "HIGH", ["identity"], [],
            ⟨"all_checks_pass", 3 / 2, none, [], false⟩,
            ⟨false, 30, false, false⟩⟩ ∧
    ¬ ((3 / 2 : ℚ) ≤ 1) :=
  ⟨rfl, by norm_num⟩

/- ============ C9, C10: ReviewRuleRouter.validate_structured_rules ============ -/

/-- The projection of a loaded rule record that `validate_structured_rules`
inspects: the optional "required_agents" and "risk_level" keys (absence of a
key models `key not in rule_config`). -/
structure RuleConfig where
  required_agents : Option (List String)
  risk_level : Option String
deriving DecidableEq

/-- Python `set(a) == set(b)` on string lists: mutual membership. -/
def sameSet (a b : List String) : Bool :=
  a.all (fun x => b.contains x) && b.all (fun x => a.contains x)

/-- The warnings `validate_structured_rules` can append for one rule,
as a closed vocabulary (the source formats them as strings). -/
inductive RuleWarning
  | unknownRule (name : String)
  | missingRequiredAgents
  | agentMismatch (expected got : List String)
  | riskLevelMismatch (expected got : String)
deriving DecidableEq

/-- The per-rule body of `validate_structured_rules`: unknown rule short
circuits; otherwise the declared `required_agents` are compared as a set
against the Router's primary agents (no prerequisites), and the declared
risk level — only when the key is present — against the Router's table. -/
def ruleWarnings (rule_name : String) (cfg : RuleConfig) : List RuleWarning :=
  match lookupKey ROUTING_MAP rule_name with
  | none => [RuleWarning.unknownRule rule_name]
  | some _ =>
      let expected := (get_agent_names rule_name false).getD []
      let agentW :=
        match cfg.required_agents with
        | none => [RuleWarning.missingRequiredAgents]
        | some got =>
            if sameSet got expected then []
            else [RuleWarning.agentMismatch expected got]
      let riskW :=
        match cfg.risk_level with
        | none => []
        | some rl =>
            if rl = get_risk_level rule_name then []
            else [RuleWarning.riskLevelMismatch (get_risk_level rule_name) rl]
      agentW ++ riskW

/-- `ReviewRuleRouter.validate_structured_rules`: per-rule warning lists,
keyed by rule name in input order. -/
def validate_structured_rules (rules : List (String × RuleConfig)) :
    List (String × List RuleWarning) :=
  rules.map fun p => (p.1, ruleWarnings p.1 p.2)

/-- C9: a registry whose IDENTITY_VERIFICATION entry declares
`required_agents = ["income"]` gets exactly one warning (the agent
mismatch), and every recognized entry whose declared agent set and risk
level match the Router's tables gets an empty warning list. -/
theorem validate_registry_agent_mismatch :
    validate_structured_rules
        [("IDENTITY_VERIFICATION", ⟨some ["income"], some "HIGH"⟩)] =
      [("IDENTITY_VERIFICATION",
        [RuleWarning.agentMismatch ["identity"] ["income"]])] ∧
    ∀ (rule_name : String) (cfg : RuleConfig) (agents : List AgentType)
      (got : List String),
      lookupKey ROUTING_MAP rule_name = some agents →
      cfg.required_agents = some got →
      sameSet got ((get_agent_names rule_name false).getD []) = true →
      cfg.risk_level = some (get_risk_level rule_name) →
      ruleWarnings rule_name cfg = [] := by
  refine ⟨by decide, ?_⟩
  intro rule_name cfg agents got hmap hra hset hrl
  rw [ruleWarnings, hmap]
  simp [hra, hset, hrl]

/-- C9 witness: a correctly configured FRAUD_CHECK entry gets no warning. -/
theorem validate_registry_agent_mismatch_witness :
    ruleWarnings "FRAUD_CHECK" ⟨some ["fraud"], some "CRITICAL"⟩ = [] :=
  validate_registry_agent_mismatch.2 "FRAUD_CHECK"
    ⟨some ["fraud"], some "CRITICAL"⟩ [AgentType.FRAUD] ["fraud"]
    (by decide) rfl (by decide) (by decide)

/-- C10: for a recognized rule whose record has no "risk_level" key, no
risk-level warning is emitted (the comparison runs only when the key is
present), while an absent "required_agents" key does produce a warning. -/
theorem absent_risk_level_no_warning (rule_name : String) (cfg : RuleConfig)
    (agents : List AgentType)
    (hmap : lookupKey ROUTING_MAP rule_name = some agents)
    (hrl : cfg.risk_level = none) :
    (∀ e g, RuleWarning.riskLevelMismatch e g ∉ ruleWarnings rule_name cfg) ∧
    (cfg.required_agents = none →
      ruleWarnings rule_name cfg = [RuleWarning.missingRequiredAgents]) := by
  constructor
  · intro e g hmem
    rw [ruleWarnings, hmap] at hmem
    simp only [hrl, List.append_nil] at hmem
    cases hra : cfg.required_agents with
    | none => rw [hra] at hmem; simp at hmem
    | some got =>
        rw [hra] at hmem
        by_cases hs : sameSet got ((get_agent_names rule_name false).getD [])
        · simp [hs] at hmem
        · simp [hs] at hmem
  · intro hra
    rw [ruleWarnings, hmap]
    simp [hra, hrl]

/-- C10 witness: an INCOME_VALIDATION record with neither key gets exactly
the missing-required-agents warning and no risk-level warning. -/
theorem absent_risk_level_no_warning_witness :
    ruleWarnings "INCOME_VALIDATION" ⟨none, none⟩ =
      [RuleWarning.missingRequiredAgents] :=
  (absent_risk_level_no_warning "INCOME_VALIDATION" ⟨none, none⟩
    [AgentType.INCOME] (by decide) rfl).2 rfl

/- ============ C1: Decision Aggregator (spec section 4.5) ============ -/

/-- `RiskLevel` enum from models/application.py. -/
inductive RiskLevel
  | LOW
  | MEDIUM
  | HIGH
  | CRITICAL
deriving DecidableEq

/-- `DecisionStatus` enum from models/application.py. -/
inductive DecisionStatus
  | APPROVED
  | DENIED
  | PENDING_REVIEW
deriving DecidableEq

/-- `FindingStatus` enum from models/application.py. -/
inductive FindingStatus
  | PASS
  | FAIL
  | REVIEW
deriving DecidableEq

/-- `AgentFinding` from models/application.py, restricted to the fields the
aggregation algorithm reads (details, reasoning text and timestamp carry no
decision weight). -/
structure AgentFinding where
  agent_name : String
  check_type : String
  status : FindingStatus
  risk_level : RiskLevel
  confidence : ℚ
deriving DecidableEq

/-- The decision-bearing fields of the finalized `UnderwritingDecision`. -/
structure DecisionOutcome where
  decision : DecisionStatus
  requires_manual_review : Bool
deriving DecidableEq

/-- Minimum of a list of confidences (1 for the empty list). -/
def minOver (l : List ℚ) : ℚ :=
  l.foldr min 1

/-- Step 1 guard: some finding has status FAIL and its check is named in its
rule's `zero_tolerance_checks`. -/
def hasZeroToleranceFail (pairs : List (AgentFinding × DecisionCriteria)) : Bool :=
  pairs.any fun p =>
    p.1.status == FindingStatus.FAIL &&
    p.2.zero_tolerance_checks.contains p.1.check_type

/-- Step 2 guard: some finding has status FAIL at CRITICAL risk. -/
def hasCriticalFail (pairs : List (AgentFinding × DecisionCriteria)) : Bool :=
  pairs.any fun p =>
    p.1.status == FindingStatus.FAIL && p.1.risk_level == RiskLevel.CRITICAL

/-- Aggregate confidence: the minimum confidence across all findings (spec:
not the average, so a single low-confidence finding is not diluted). -/
def aggregateConfidence (pairs : List (AgentFinding × DecisionCriteria)) : ℚ :=
  minOver (pairs.map fun p => p.1.confidence)

/-- The effective threshold: the minimum of all applied rules'
`min_confidence`. -/
def combinedThreshold (pairs : List (AgentFinding × DecisionCriteria)) : ℚ :=
  minOver (pairs.map fun p => p.2.min_confidence)

/-- Modelled from the spec: the Decision Aggregator's `Finalize` algorithm
(spec section 4.5) is not implemented under src/ — the repository ships only
the `UnderwritingDecision` data model and its helper predicates — so the
five ordered steps are taken verbatim from the spec.  Each finding is paired
with the `DecisionCriteria` of the rule it was produced for. -/
def finalize (pairs : List (AgentFinding × DecisionCriteria)) : DecisionOutcome :=
  if hasZeroToleranceFail pairs then ⟨DecisionStatus.DENIED, false⟩
  else if hasCriticalFail pairs then ⟨DecisionStatus.DENIED, false⟩
  else if aggregateConfidence pairs < combinedThreshold pairs then
    ⟨DecisionStatus.PENDING_REVIEW, true⟩
  else if pairs.all (fun p => p.1.status == FindingStatus.PASS) then
    ⟨DecisionStatus.APPROVED, false⟩
  else ⟨DecisionStatus.PENDING_REVIEW, true⟩

/-- C1: a zero-tolerance FAIL finding forces a DENIED decision with
`requires_manual_review = false`, whatever every other finding's status,
risk level and confidence are. -/
theorem zero_tolerance_fail_forces_denied
    (pairs : List (AgentFinding × DecisionCriteria))
    (h : ∃ p ∈ pairs, p.1.status = FindingStatus.FAIL ∧
         p.1.check_type ∈ p.2.zero_tolerance_checks) :
    finalize pairs = ⟨DecisionStatus.DENIED, false⟩ := by
  have hz : hasZeroToleranceFail pairs = true := by
    rw [hasZeroToleranceFail, List.any_eq_true]
    obtain ⟨p, hp, h1, h2⟩ := h
    exact ⟨p, hp, by simp [h1, h2]⟩
  rw [finalize, hz]
  rfl

/-- The OFAC rule's criteria: `ofac_check` is zero tolerance. -/
def ofacCriteria : DecisionCriteria :=
  ⟨"all_checks_pass", 4 / 5, none, ["ofac_check"], false⟩

/-- A plain rule's criteria with no zero-tolerance checks. -/
def plainCriteria : DecisionCriteria :=
  ⟨"all_checks_pass", 4 / 5, none, [], false⟩

/-- One zero-tolerance FAIL among findings that otherwise all PASS with
confidence 1. -/
def demoPairs : List (AgentFinding × DecisionCriteria) :=
  [(⟨"FraudAgent", "ofac_check", FindingStatus.FAIL, RiskLevel.HIGH, 1⟩,
    ofacCriteria),
   (⟨"IdentityAgent", "ssn_validation", FindingStatus.PASS, RiskLevel.LOW, 1⟩,
    plainCriteria),
   (⟨"IncomeAgent", "income_verification", FindingStatus.PASS, RiskLevel.LOW, 1⟩,
    plainCriteria)]

/-- C1 witness: the zero-tolerance FAIL denies even though every other
finding is PASS with confidence 1.0. -/
theorem zero_tolerance_fail_forces_denied_witness :
    (∃ p ∈ demoPairs, p.1.status = FindingStatus.FAIL ∧
      p.1.check_type ∈ p.2.zero_tolerance_checks) ∧
    finalize demoPairs = ⟨DecisionStatus.DENIED, false⟩ :=
  ⟨by decide, zero_tolerance_fail_forces_denied demoPairs (by decide)⟩
